import Mathlib

/-!
Shallow embedding of the `lsh` shell core (slabounty/lsh), translated from
`src/main.rs`, `src/builtins.rs`, `src/environment.rs` and `src/external.rs`.

Modelling conventions:
* `ShellEnv` (`environment.rs`) keeps a `HashMap<String,String>`; we model it
  as an association list with unique keys, where `set_var` overwrites and
  `unset_var` removes — exactly the observable get/set/unset semantics of the
  hash map (iteration order is not relied upon by any claim).
* Output and error sinks (`&mut dyn Write`) become a `Sink`: a list of written
  lines plus a flag saying whether writes on this sink succeed.  Rust's
  `let _ = writeln!(..)` ignores the flag; `writeln!(..).unwrap()` panics on
  failure.
* The real process working directory and filesystem become `FileSys`: a set of
  existing directories, the current directory, and a flag saying whether
  `env::current_dir()` queries succeed.  `env::set_current_dir(t)` succeeds
  iff `t` is an existing directory.
* A Rust panic (`.unwrap()` on an error) is modelled by returning `none`:
  every fallible operation has result type `Option _`.
* Spawning an external child (`Command::spawn` + `wait`) is modelled by an
  oracle `SpawnResult` supplied by the world: either the child ran and exited
  with some code, or spawning failed with a system error message.
-/

/-- Result of a builtin or of dispatching a command line
(`ShellAction` in `builtins.rs`). -/
inductive ShellAction where
  | Continue
  | Exit
deriving DecidableEq, Repr

/-- The environment store (`ShellEnv` in `environment.rs`):
a map from variable names to values, modelled as an association list
with unique keys. -/
structure ShellEnv where
  vars : List (String × String)
deriving DecidableEq, Repr

namespace ShellEnv

/-- `ShellEnv::empty()` (used by the repository's tests): no entries. -/
def empty : ShellEnv := ⟨[]⟩

/-- `get_var`: `self.vars.get(key)`. -/
def get_var (env : ShellEnv) (key : String) : Option String :=
  (env.vars.find? (fun p => p.1 == key)).map Prod.snd

/-- `set_var`: `self.vars.insert(key, value)` — insert or overwrite. -/
def set_var (env : ShellEnv) (key value : String) : ShellEnv :=
  ⟨(key, value) :: env.vars.filter (fun p => p.1 != key)⟩

/-- `unset_var`: `self.vars.remove(key)`. -/
def unset_var (env : ShellEnv) (key : String) : ShellEnv :=
  ⟨env.vars.filter (fun p => p.1 != key)⟩

end ShellEnv

/-- A writable text sink (`&mut dyn Write`): the lines written so far, and
whether writes on this sink succeed. -/
structure Sink where
  lines : List String
  ok : Bool
deriving DecidableEq, Repr

/-- `writeln!(sink, line)`: appends the line and reports success, or leaves
the sink unchanged and reports failure. -/
def Sink.writeln (s : Sink) (line : String) : Sink × Bool :=
  if s.ok then (⟨s.lines ++ [line], true⟩, true) else (s, false)

/-- The host filesystem and process working directory, as seen through
`std::env::current_dir` / `std::env::set_current_dir`. -/
structure FileSys where
  dirs : List String
  cwd : String
  cwdOk : Bool
deriving DecidableEq, Repr

/-- `std::env::current_dir()`: `none` models the `Err` case. -/
def currentDir (fs : FileSys) : Option String :=
  if fs.cwdOk then some fs.cwd else none

/-- Display text of the `io::Error` produced by a failed
`set_current_dir` on a missing path. -/
def cdErrorMessage : String := "No such file or directory (os error 2)"

/-- `std::env::set_current_dir(target)`: succeeds iff the target directory
exists, and then changes the process working directory. -/
def setCurrentDir (fs : FileSys) (target : String) : Except String FileSys :=
  if target ∈ fs.dirs then Except.ok { fs with cwd := target }
  else Except.error cdErrorMessage

/-- The full mutable world a builtin sees: the environment store, the real
filesystem/working directory, and the two sinks. -/
structure ShellState where
  env : ShellEnv
  fs : FileSys
  out : Sink
  err : Sink
deriving DecidableEq, Repr

/-- `builtin_cd` from `builtins.rs`.  `none` models a panic
(the `env::current_dir().unwrap()` calls). -/
def builtin_cd (args : List String) (st : ShellState) :
    Option (ShellState × ShellAction) :=
  -- Determine the target directory (with the early return on `cd -`
  -- when OLDPWD is unset)
  let targetOrReturn : String ⊕ (ShellState × ShellAction) :=
    match args with
    | [] => Sum.inl ((st.env.get_var "HOME").getD "/")
    | a :: _ =>
      if a = "-" then
        match st.env.get_var "OLDPWD" with
        | some path => Sum.inl path
        | none =>
          Sum.inr ({ st with err := (st.err.writeln "cd: OLDPWD not set").1 },
                   ShellAction.Continue)
      else Sum.inl a
  match targetOrReturn with
  | Sum.inr r => some r
  | Sum.inl target =>
    -- Save old PWD before changing: `env::current_dir().unwrap()`
    match currentDir st.fs with
    | none => none
    | some old_pwd =>
      -- Try to change directory
      match setCurrentDir st.fs target with
      | Except.error e =>
        some ({ st with err := (st.err.writeln ("cd: " ++ e)).1 },
              ShellAction.Continue)
      | Except.ok fs' =>
        -- `env::current_dir().unwrap()` again, then update OLDPWD / PWD
        match currentDir fs' with
        | none => none
        | some new_pwd =>
          some ({ st with
                    fs := fs'
                    env := (st.env.set_var "OLDPWD" old_pwd).set_var
                             "PWD" new_pwd },
                ShellAction.Continue)

/-- `builtin_pwd`: `writeln!(out, current_dir().unwrap())` — the query is
unwrapped (panic on failure), the write result is discarded. -/
def builtin_pwd (_args : List String) (st : ShellState) :
    Option (ShellState × ShellAction) :=
  match currentDir st.fs with
  | none => none
  | some d => some ({ st with out := (st.out.writeln d).1 }, ShellAction.Continue)

/-- `builtin_echo`: `writeln!(out, args.join(" ")).unwrap()` — the write
result is unwrapped, so a failing output sink panics. -/
def builtin_echo (args : List String) (st : ShellState) :
    Option (ShellState × ShellAction) :=
  let (out', wok) := st.out.writeln (String.intercalate " " args)
  if wok then some ({ st with out := out' }, ShellAction.Continue) else none

/-- `builtin_exit`: ignores everything and returns Exit. -/
def builtin_exit (_args : List String) (st : ShellState) :
    Option (ShellState × ShellAction) :=
  some (st, ShellAction.Exit)

/-- `builtin_set`: with exactly two arguments sets the variable,
otherwise writes the usage string to the error sink. -/
def builtin_set (args : List String) (st : ShellState) :
    Option (ShellState × ShellAction) :=
  match args with
  | [key, value] =>
    some ({ st with env := st.env.set_var key value }, ShellAction.Continue)
  | _ =>
    some ({ st with err := (st.err.writeln "usage: set VAR VALUE").1 },
          ShellAction.Continue)

/-- `builtin_unset`: with exactly one argument removes the variable,
otherwise writes the usage string to the error sink. -/
def builtin_unset (args : List String) (st : ShellState) :
    Option (ShellState × ShellAction) :=
  match args with
  | [key] =>
    some ({ st with env := st.env.unset_var key }, ShellAction.Continue)
  | _ =>
    some ({ st with err := (st.err.writeln "usage: unset VAR").1 },
          ShellAction.Continue)

/-- `builtin_env`: writes every `name=value` pair to the output sink,
one per line, discarding write results. -/
def builtin_env (_args : List String) (st : ShellState) :
    Option (ShellState × ShellAction) :=
  let out' := st.env.vars.foldl
    (fun o p => (Sink.writeln o (p.1 ++ "=" ++ p.2)).1) st.out
  some ({ st with out := out' }, ShellAction.Continue)

/-- Outcome of `Command::spawn()` + `child.wait()` for one external command,
decided by the world: the child ran and exited with some code, or the spawn
failed with a system error message. -/
inductive SpawnResult where
  | ran (exitCode : Int)
  | failed (msg : String)
deriving DecidableEq, Repr

/-- `run_external` from `main.rs` / `external.rs`: waits for the child and
discards its exit status; on spawn failure writes
`error running '<cmd>': <err>` to standard error (`eprintln!`, which panics
if the write fails). -/
def run_external (cmd : String) (_args : List String) (_env : ShellEnv)
    (st : ShellState) (spawn : SpawnResult) : Option (ShellState × ShellAction) :=
  match spawn with
  | SpawnResult.ran _ => some (st, ShellAction.Continue)
  | SpawnResult.failed msg =>
    let (err', wok) := st.err.writeln
      ("error running \x27" ++ cmd ++ "\x27: " ++ msg)
    if wok then some ({ st with err := err' }, ShellAction.Continue) else none

/-- The builtin registry built by `builtins()`: name → operation,
exact case-sensitive match. -/
def builtins_lookup (cmd : String) :
    Option (List String → ShellState → Option (ShellState × ShellAction)) :=
  if cmd = "cd" then some builtin_cd
  else if cmd = "pwd" then some builtin_pwd
  else if cmd = "echo" then some builtin_echo
  else if cmd = "exit" then some builtin_exit
  else if cmd = "set" then some builtin_set
  else if cmd = "unset" then some builtin_unset
  else if cmd = "env" then some builtin_env
  else none

/-- Accumulating tokenizer over the characters of the line: whitespace runs
separate tokens, no empty tokens are produced. -/
def tokenizeChars : List Char → List Char → List String
  | [], cur => if cur.isEmpty then [] else [String.mk cur.reverse]
  | c :: rest, cur =>
    if c.isWhitespace then
      if cur.isEmpty then tokenizeChars rest []
      else String.mk cur.reverse :: tokenizeChars rest []
    else tokenizeChars rest (c :: cur)

/-- `input.split_whitespace()`: split on whitespace runs, no empty tokens. -/
def split_whitespace (s : String) : List String :=
  tokenizeChars s.data []

/-- `arg.starts_with("$")`: the first character is the sigil. -/
def startsWithSigil (s : String) : Bool :=
  match s.data with
  | [] => false
  | c :: _ => c == '$'

/-- `&arg[1..]`: everything after the sigil (the sigil `$` is one byte,
so byte index 1 is the second character). -/
def afterSigil (s : String) : String := String.mk (s.data.drop 1)

/-- `expand_args` from `main.rs`: expands each token in order.  A token
starting with `$` is looked up (everything after the sigil) in the store;
a hit is replaced by the value, a miss passes through unchanged. -/
def expand_args : List String → ShellEnv → List String
  | [], _ => []
  | arg :: rest, env =>
    (if startsWithSigil arg then
       match env.get_var (afterSigil arg) with
       | some v => v
       | none => arg
     else arg) :: expand_args rest env

/-- `handle_command` from `main.rs`: tokenize, `split_first().unwrap()`
(panic — `none` — on an empty token list), expand the arguments, then
dispatch to a builtin or to the external executor. -/
def handle_command (input : String) (st : ShellState) (spawn : SpawnResult) :
    Option (ShellState × ShellAction) :=
  match split_whitespace input with
  | [] => none
  | cmd :: args =>
    let expanded := expand_args args st.env
    match builtins_lookup cmd with
    | some f => f expanded st
    | none => run_external cmd expanded st.env st spawn

/-- The `Ok(input)` arm of the driving loop in `main`: it invokes
`handle_command` on every line read, with no emptiness check, and turns the
dispatch result into a stop flag. -/
def main_loop_step (input : String) (st : ShellState) (spawn : SpawnResult) :
    Option (ShellState × Bool) :=
  (handle_command input st spawn).map
    (fun r => (r.1, match r.2 with
                    | ShellAction.Exit => true
                    | ShellAction.Continue => false))

/-- A sample world: empty store, three existing directories, healthy sinks. -/
def sampleState : ShellState :=
  { env := ShellEnv.empty
    fs := { dirs := ["/", "/a", "/b"], cwd := "/", cwdOk := true }
    out := { lines := [], ok := true }
    err := { lines := [], ok := true } }

/-- A world whose output sink rejects writes. -/
def stateBadOut : ShellState :=
  { sampleState with out := { lines := [], ok := false } }

/-- A world where `env::current_dir()` fails. -/
def stateBadCwd : ShellState :=
  { sampleState with fs := { dirs := ["/", "/tmp"], cwd := "/", cwdOk := false } }

namespace ShellEnv

theorem find?_filter_ne (l : List (String × String)) (k k' : String)
    (h : k' ≠ k) :
    (l.filter (fun p => p.1 != k)).find? (fun p => p.1 == k') =
      l.find? (fun p => p.1 == k') := by
  induction l with
  | nil => rfl
  | cons a t ih =>
    by_cases ha : a.1 = k
    · have hfa : (a.1 != k) = false := by simp [ha]
      have hka : (a.1 == k') = false := by
        simp [ha]
        exact Ne.symm h
      simp [List.filter_cons, List.find?_cons, hfa, hka, ih]
    · have hfa : (a.1 != k) = true := by simp [ha]
      by_cases hk' : a.1 = k'
      · have hp : (a.1 == k') = true := by simp [hk']
        simp [List.filter_cons, List.find?_cons, hfa, hp]
      · have hp : (a.1 == k') = false := by simp [hk']
        simp [List.filter_cons, List.find?_cons, hfa, hp, ih]

theorem find?_filter_self (l : List (String × String)) (k : String) :
    (l.filter (fun p => p.1 != k)).find? (fun p => p.1 == k) = none := by
  induction l with
  | nil => rfl
  | cons a t ih =>
    by_cases ha : a.1 = k
    · have hfa : (a.1 != k) = false := by simp [ha]
      simp [List.filter_cons, hfa, ih]
    · have hfa : (a.1 != k) = true := by simp [ha]
      have hp : (a.1 == k) = false := by simp [ha]
      simp [List.filter_cons, List.find?_cons, hfa, hp, ih]

theorem filter_of_find?_none (l : List (String × String)) (k : String)
    (h : l.find? (fun p => p.1 == k) = none) :
    l.filter (fun p => p.1 != k) = l := by
  induction l with
  | nil => rfl
  | cons a t ih =>
    by_cases ha : a.1 = k
    · have hp : (a.1 == k) = true := by simp [ha]
      rw [List.find?_cons, hp] at h
      exact absurd h (by simp)
    · have hp : (a.1 == k) = false := by simp [ha]
      have hfa : (a.1 != k) = true := by simp [ha]
      rw [List.find?_cons, hp] at h
      simp only [List.filter_cons, hfa, if_true]
      simp only [cond] at h
      rw [ih h]

/-- Reading back the key just written returns the written value. -/
theorem get_var_set_var_self (env : ShellEnv) (k v : String) :
    (env.set_var k v).get_var k = some v := by
  show (((k, v) :: env.vars.filter (fun p => p.1 != k)).find?
    (fun p => p.1 == k)).map Prod.snd = some v
  have hp : ((k, v).1 == k) = true := by simp
  rw [List.find?_cons, hp]
  rfl

/-- Writing one key leaves every other key unchanged. -/
theorem get_var_set_var_other (env : ShellEnv) (k k' v : String)
    (h : k' ≠ k) :
    (env.set_var k v).get_var k' = env.get_var k' := by
  show (((k, v) :: env.vars.filter (fun p => p.1 != k)).find?
    (fun p => p.1 == k')).map Prod.snd = _
  have hp : ((k, v).1 == k') = false := by
    simp
    exact Ne.symm h
  rw [List.find?_cons, hp, find?_filter_ne env.vars k k' h]
  rfl

/-- Reading a key just removed returns absence. -/
theorem get_var_unset_var_self (env : ShellEnv) (k : String) :
    (env.unset_var k).get_var k = none := by
  show ((env.vars.filter (fun p => p.1 != k)).find?
    (fun p => p.1 == k)).map Prod.snd = none
  rw [find?_filter_self]
  rfl

/-- Removing an absent key changes nothing. -/
theorem unset_var_absent (env : ShellEnv) (k : String)
    (h : env.get_var k = none) :
    env.unset_var k = env := by
  have hf : env.vars.find? (fun p => p.1 == k) = none := by
    unfold get_var at h
    exact Option.map_eq_none.mp h
  show (⟨env.vars.filter (fun p => p.1 != k)⟩ : ShellEnv) = env
  rw [filter_of_find?_none env.vars k hf]

end ShellEnv

/-- C9: for every non-empty key K and value V and any state of the store,
set(K,V) then get(K) returns V (insert-or-overwrite, last write wins);
unset(K) then get(K) returns absence; unset of an absent key is a no-op;
both operations are total functions, so they always succeed. -/
theorem c9_env_store_set_unset (k v : String) (env : ShellEnv)
    (hk : k ≠ "") :
    (env.set_var k v).get_var k = some v ∧
    (env.unset_var k).get_var k = none ∧
    (env.get_var k = none → env.unset_var k = env) :=
  ⟨ShellEnv.get_var_set_var_self env k v,
   ShellEnv.get_var_unset_var_self env k,
   fun h => ShellEnv.unset_var_absent env k h⟩

/-- Witness for C9 at K = "FOO", V = "bar" on the empty store. -/
theorem c9_env_store_set_unset_witness :
    (ShellEnv.empty.set_var "FOO" "bar").get_var "FOO" = some "bar" ∧
    (ShellEnv.empty.unset_var "FOO").get_var "FOO" = none ∧
    (ShellEnv.empty.get_var "FOO" = none →
      ShellEnv.empty.unset_var "FOO" = ShellEnv.empty) :=
  c9_env_store_set_unset "FOO" "bar" ShellEnv.empty (by decide)

/-- C10: the lone-sigil token `$` is looked up under the empty variable
name: a mapping for "" replaces the token by its value, otherwise `$`
passes through unchanged. -/
theorem c10_lone_sigil_token (env : ShellEnv) :
    (∀ v, env.get_var "" = some v → expand_args ["$"] env = [v]) ∧
    (env.get_var "" = none → expand_args ["$"] env = ["$"]) := by
  have hs : startsWithSigil "$" = true := by decide
  have ha : afterSigil "$" = "" := by decide
  constructor
  · intro v hv
    simp [expand_args, hs, ha, hv]
  · intro hv
    simp [expand_args, hs, ha, hv]

/-- Witness for C10: with "" bound to "E" the token `$` becomes `E`; with
an empty store it passes through unchanged. -/
theorem c10_lone_sigil_token_witness :
    expand_args ["$"] (ShellEnv.empty.set_var "" "E") = ["E"] ∧
    expand_args ["$"] ShellEnv.empty = ["$"] :=
  ⟨(c10_lone_sigil_token (ShellEnv.empty.set_var "" "E")).1 "E" (by decide),
   (c10_lone_sigil_token ShellEnv.empty).2 (by decide)⟩

/-- C2: argument expansion returns a list of equal length in the same
order; a sigil token whose remainder is bound in the store becomes the
bound value, an unbound sigil token and every non-sigil token pass through
unchanged; on lists with no sigil tokens expansion is the identity. -/
theorem c2_expand_args_pointwise (args : List String) (env : ShellEnv) :
    (expand_args args env).length = args.length ∧
    (∀ i, (expand_args args env).get? i = (args.get? i).map (fun a =>
        if startsWithSigil a then (env.get_var (afterSigil a)).getD a
        else a)) ∧
    ((∀ a ∈ args, startsWithSigil a = false) → expand_args args env = args) := by
  induction args with
  | nil =>
    exact ⟨rfl, fun i => by cases i <;> rfl, fun _ => rfl⟩
  | cons a t ih =>
    refine ⟨?_, ?_, ?_⟩
    · simpa [expand_args] using ih.1
    · intro i
      cases i with
      | zero =>
        cases hv : env.get_var (afterSigil a) <;>
          cases hs : startsWithSigil a <;>
            simp [expand_args, List.get?, hv, hs]
      | succ n =>
        simpa [expand_args, List.get?] using ih.2.1 n
    · intro hall
      have ha : startsWithSigil a = false := hall a (by simp)
      have ht : expand_args t env = t :=
        ih.2.2 (fun x hx => hall x (by simp [hx]))
      simp [expand_args, ha, ht]

/-- Witness for C2: expansion is the identity on a sigil-free list. -/
theorem c2_expand_args_pointwise_witness :
    expand_args ["say", "hi"] ShellEnv.empty = ["say", "hi"] :=
  (c2_expand_args_pointwise ["say", "hi"] ShellEnv.empty).2.2 (by decide)

/-- C1: refuted on the code — the driving loop's `Ok` arm does not discard
empty or all-whitespace lines: it invokes `handle_command` on every line
read, and on a zero-token line `split_first().unwrap()` panics (modelled
as `none`), so dispatch on zero tokens does occur and aborts the shell. -/
theorem c1_empty_line_reaches_dispatch :
    split_whitespace "   " = [] ∧
    handle_command "   " sampleState (SpawnResult.ran 0) = none ∧
    main_loop_step "   " sampleState (SpawnResult.ran 0) = none :=
  ⟨by decide, by decide, by decide⟩

/-- C4: refuted on the code — command processing can terminate the
process: `builtin_echo` unwraps its output-sink write, and `builtin_pwd` /
`builtin_cd` unwrap the working-directory query, so a failing sink write
or a failing `current_dir()` panics (modelled as `none`). -/
theorem c4_failures_abort_process :
    builtin_echo ["hi"] stateBadOut = none ∧
    handle_command "echo hi" stateBadOut (SpawnResult.ran 0) = none ∧
    builtin_pwd [] stateBadCwd = none ∧
    builtin_cd ["/tmp"] stateBadCwd = none ∧
    handle_command "pwd" stateBadCwd (SpawnResult.ran 0) = none :=
  ⟨by decide, by decide, by decide, by decide, by decide⟩

/-- Result of a successful `cd` to an explicit existing path: the working
directory moves and OLDPWD/PWD are written from the directory left and the
directory entered. -/
theorem builtin_cd_success (p : String) (st : ShellState)
    (hp : p ≠ "-") (hok : st.fs.cwdOk = true) (hmem : p ∈ st.fs.dirs) :
    builtin_cd [p] st =
      some ({ st with
                fs := { st.fs with cwd := p }
                env := (st.env.set_var "OLDPWD" st.fs.cwd).set_var "PWD" p },
            ShellAction.Continue) := by
  simp [builtin_cd, currentDir, setCurrentDir, hp, hok, hmem]

/-- Result of `cd -` when OLDPWD holds an existing directory. -/
theorem builtin_cd_dash (st : ShellState) (q : String)
    (hq : st.env.get_var "OLDPWD" = some q)
    (hok : st.fs.cwdOk = true) (hmem : q ∈ st.fs.dirs) :
    builtin_cd ["-"] st =
      some ({ st with
                fs := { st.fs with cwd := q }
                env := (st.env.set_var "OLDPWD" st.fs.cwd).set_var "PWD" q },
            ShellAction.Continue) := by
  simp [builtin_cd, currentDir, setCurrentDir, hq, hok, hmem]

/-- Result of `cd` to an explicit non-existing path: only the error sink is
touched. -/
theorem builtin_cd_fail (p : String) (st : ShellState)
    (hp : p ≠ "-") (hok : st.fs.cwdOk = true) (hmem : p ∉ st.fs.dirs) :
    builtin_cd [p] st =
      some ({ st with err := (st.err.writeln ("cd: " ++ cdErrorMessage)).1 },
            ShellAction.Continue) := by
  simp [builtin_cd, currentDir, setCurrentDir, hp, hok, hmem]

/-- Observable facts after a successful `cd` to an explicit path. -/
theorem cd_success_state (p : String) (st : ShellState)
    (hp : p ≠ "-") (hok : st.fs.cwdOk = true) (hmem : p ∈ st.fs.dirs) :
    ∃ st', builtin_cd [p] st = some (st', ShellAction.Continue) ∧
      st'.fs.cwd = p ∧ st'.fs.dirs = st.fs.dirs ∧
      st'.fs.cwdOk = st.fs.cwdOk ∧
      st'.env.get_var "OLDPWD" = some st.fs.cwd ∧
      st'.env.get_var "PWD" = some p := by
  refine ⟨_, builtin_cd_success p st hp hok hmem, rfl, rfl, rfl, ?_, ?_⟩
  · rw [ShellEnv.get_var_set_var_other _ "PWD" "OLDPWD" p (by decide)]
    exact ShellEnv.get_var_set_var_self st.env "OLDPWD" st.fs.cwd
  · exact ShellEnv.get_var_set_var_self _ "PWD" p

/-- Observable facts after a successful `cd -`. -/
theorem cd_dash_state (st : ShellState) (q : String)
    (hq : st.env.get_var "OLDPWD" = some q)
    (hok : st.fs.cwdOk = true) (hmem : q ∈ st.fs.dirs) :
    ∃ st', builtin_cd ["-"] st = some (st', ShellAction.Continue) ∧
      st'.fs.cwd = q ∧ st'.fs.dirs = st.fs.dirs ∧
      st'.fs.cwdOk = st.fs.cwdOk ∧
      st'.env.get_var "OLDPWD" = some st.fs.cwd ∧
      st'.env.get_var "PWD" = some q := by
  refine ⟨_, builtin_cd_dash st q hq hok hmem, rfl, rfl, rfl, ?_, ?_⟩
  · rw [ShellEnv.get_var_set_var_other _ "PWD" "OLDPWD" q (by decide)]
    exact ShellEnv.get_var_set_var_self st.env "OLDPWD" st.fs.cwd
  · exact ShellEnv.get_var_set_var_self _ "PWD" q

/-- C5: when `cd` is given a path and the directory change fails, it writes
one line of the form `cd: <system error message>` to the error sink, leaves
the store (hence OLDPWD and PWD), the working directory and the output sink
unchanged, and returns Continue. -/
theorem c5_cd_failure (p : String) (st : ShellState)
    (hp : p ≠ "-") (hok : st.fs.cwdOk = true) (hmem : p ∉ st.fs.dirs)
    (herr : st.err.ok = true) :
    ∃ st', builtin_cd [p] st = some (st', ShellAction.Continue) ∧
      (∃ m, st'.err.lines = st.err.lines ++ ["cd: " ++ m]) ∧
      st'.env = st.env ∧ st'.fs = st.fs ∧ st'.out = st.out := by
  refine ⟨{ st with err := (st.err.writeln ("cd: " ++ cdErrorMessage)).1 },
    builtin_cd_fail p st hp hok hmem, ⟨cdErrorMessage, ?_⟩, rfl, rfl, rfl⟩
  simp [Sink.writeln, herr]

/-- Witness for C5: `cd /nope` in the sample world. -/
theorem c5_cd_failure_witness :
    ∃ st', builtin_cd ["/nope"] sampleState = some (st', ShellAction.Continue) ∧
      (∃ m, st'.err.lines = sampleState.err.lines ++ ["cd: " ++ m]) ∧
      st'.env = sampleState.env ∧ st'.fs = sampleState.fs ∧
      st'.out = sampleState.out :=
  c5_cd_failure "/nope" sampleState (by decide) (by decide) (by decide)
    (by decide)

/-- C7: `cd -` with OLDPWD absent writes exactly `cd: OLDPWD not set` to the
error sink, changes nothing else, and returns Continue. -/
theorem c7_cd_dash_without_oldpwd (st : ShellState)
    (h : st.env.get_var "OLDPWD" = none) (herr : st.err.ok = true) :
    ∃ st', builtin_cd ["-"] st = some (st', ShellAction.Continue) ∧
      st'.err.lines = st.err.lines ++ ["cd: OLDPWD not set"] ∧
      st'.env = st.env ∧ st'.fs = st.fs ∧ st'.out = st.out := by
  refine ⟨{ st with err := (st.err.writeln "cd: OLDPWD not set").1 },
    ?_, ?_, rfl, rfl, rfl⟩
  · simp [builtin_cd, h]
  · simp [Sink.writeln, herr]

/-- Witness for C7: `cd -` in the sample world, whose store is empty. -/
theorem c7_cd_dash_without_oldpwd_witness :
    ∃ st', builtin_cd ["-"] sampleState = some (st', ShellAction.Continue) ∧
      st'.err.lines = sampleState.err.lines ++ ["cd: OLDPWD not set"] ∧
      st'.env = sampleState.env ∧ st'.fs = sampleState.fs ∧
      st'.out = sampleState.out :=
  c7_cd_dash_without_oldpwd sampleState (by decide) (by decide)

/-- C6: every successful directory change updates OLDPWD to the directory
left and PWD to the directory entered, and for any two existing directories
the sequence `cd dir1; cd dir2; cd -` restores dir1 while a second `cd -`
restores dir2. -/
theorem c6_cd_updates_and_toggle :
    (∀ p st, p ≠ "-" → st.fs.cwdOk = true → p ∈ st.fs.dirs →
      ∃ st', builtin_cd [p] st = some (st', ShellAction.Continue) ∧
        st'.fs.cwd = p ∧
        st'.env.get_var "OLDPWD" = some st.fs.cwd ∧
        st'.env.get_var "PWD" = some p) ∧
    (∀ d1 d2 st, d1 ≠ "-" → d2 ≠ "-" → st.fs.cwdOk = true →
      d1 ∈ st.fs.dirs → d2 ∈ st.fs.dirs →
      ∃ st1 st2 st3 st4,
        builtin_cd [d1] st = some (st1, ShellAction.Continue) ∧
          st1.fs.cwd = d1 ∧
        builtin_cd [d2] st1 = some (st2, ShellAction.Continue) ∧
          st2.fs.cwd = d2 ∧
        builtin_cd ["-"] st2 = some (st3, ShellAction.Continue) ∧
          st3.fs.cwd = d1 ∧
        builtin_cd ["-"] st3 = some (st4, ShellAction.Continue) ∧
          st4.fs.cwd = d2) := by
  constructor
  · intro p st hp hok hmem
    obtain ⟨st', he, hc, _, _, ho, hw⟩ := cd_success_state p st hp hok hmem
    exact ⟨st', he, hc, ho, hw⟩
  · intro d1 d2 st h1 h2 hok hm1 hm2
    obtain ⟨st1, e1, c1, dir1, ok1, old1, pwd1⟩ :=
      cd_success_state d1 st h1 hok hm1
    obtain ⟨st2, e2, c2, dir2, ok2, old2, pwd2⟩ :=
      cd_success_state d2 st1 h2 (by rw [ok1]; exact hok)
        (by rw [dir1]; exact hm2)
    have old2' : st2.env.get_var "OLDPWD" = some d1 := by rw [old2, c1]
    obtain ⟨st3, e3, c3, dir3, ok3, old3, pwd3⟩ :=
      cd_dash_state st2 d1 old2' (by rw [ok2, ok1]; exact hok)
        (by rw [dir2, dir1]; exact hm1)
    have old3' : st3.env.get_var "OLDPWD" = some d2 := by rw [old3, c2]
    obtain ⟨st4, e4, c4, _, _, _, _⟩ :=
      cd_dash_state st3 d2 old3' (by rw [ok3, ok2, ok1]; exact hok)
        (by rw [dir3, dir2, dir1]; exact hm2)
    exact ⟨st1, st2, st3, st4, e1, c1, e2, c2, e3, c3, e4, c4⟩

/-- Witness for C6: the toggle between `/a` and `/b` in the sample world. -/
theorem c6_cd_updates_and_toggle_witness :
    ∃ st1 st2 st3 st4,
      builtin_cd ["/a"] sampleState = some (st1, ShellAction.Continue) ∧
        st1.fs.cwd = "/a" ∧
      builtin_cd ["/b"] st1 = some (st2, ShellAction.Continue) ∧
        st2.fs.cwd = "/b" ∧
      builtin_cd ["-"] st2 = some (st3, ShellAction.Continue) ∧
        st3.fs.cwd = "/a" ∧
      builtin_cd ["-"] st3 = some (st4, ShellAction.Continue) ∧
        st4.fs.cwd = "/b" :=
  c6_cd_updates_and_toggle.2 "/a" "/b" sampleState (by decide) (by decide)
    (by decide) (by decide) (by decide)

/-- C8: `set` with an argument count other than two writes exactly
`usage: set VAR VALUE` to the error sink and mutates nothing; `unset` with
an argument count other than one writes exactly `usage: unset VAR` and
mutates nothing; both return Continue. -/
theorem c8_set_unset_usage :
    (∀ args st, args.length ≠ 2 →
      ∃ st', builtin_set args st = some (st', ShellAction.Continue) ∧
        st'.env = st.env ∧ st'.fs = st.fs ∧ st'.out = st.out ∧
        (st.err.ok = true →
          st'.err.lines = st.err.lines ++ ["usage: set VAR VALUE"])) ∧
    (∀ args st, args.length ≠ 1 →
      ∃ st', builtin_unset args st = some (st', ShellAction.Continue) ∧
        st'.env = st.env ∧ st'.fs = st.fs ∧ st'.out = st.out ∧
        (st.err.ok = true →
          st'.err.lines = st.err.lines ++ ["usage: unset VAR"])) := by
  constructor
  · intro args st hlen
    refine ⟨{ st with err := (st.err.writeln "usage: set VAR VALUE").1 },
      ?_, rfl, rfl, rfl, fun herr => by simp [Sink.writeln, herr]⟩
    rcases args with _ | ⟨a, _ | ⟨b, _ | ⟨c, t⟩⟩⟩
    · rfl
    · rfl
    · simp at hlen
    · rfl
  · intro args st hlen
    refine ⟨{ st with err := (st.err.writeln "usage: unset VAR").1 },
      ?_, rfl, rfl, rfl, fun herr => by simp [Sink.writeln, herr]⟩
    rcases args with _ | ⟨a, _ | ⟨b, t⟩⟩
    · rfl
    · simp at hlen
    · rfl

/-- Witness for C8: zero arguments to `set` and to `unset` in the sample
world. -/
theorem c8_set_unset_usage_witness :
    (∃ st', builtin_set [] sampleState = some (st', ShellAction.Continue) ∧
      st'.env = sampleState.env ∧ st'.fs = sampleState.fs ∧
      st'.out = sampleState.out ∧
      (sampleState.err.ok = true →
        st'.err.lines = sampleState.err.lines ++ ["usage: set VAR VALUE"])) ∧
    (∃ st', builtin_unset [] sampleState = some (st', ShellAction.Continue) ∧
      st'.env = sampleState.env ∧ st'.fs = sampleState.fs ∧
      st'.out = sampleState.out ∧
      (sampleState.err.ok = true →
        st'.err.lines = sampleState.err.lines ++ ["usage: unset VAR"])) :=
  ⟨c8_set_unset_usage.1 [] sampleState (by decide),
   c8_set_unset_usage.2 [] sampleState (by decide)⟩

theorem builtin_cd_continue (args : List String) (st st' : ShellState)
    (a : ShellAction) (h : builtin_cd args st = some (st', a)) :
    a = ShellAction.Continue := by
  unfold builtin_cd at h
  repeat' (first | split at h | simp only [] at h)
  all_goals simp_all

theorem builtin_pwd_continue (args : List String) (st st' : ShellState)
    (a : ShellAction) (h : builtin_pwd args st = some (st', a)) :
    a = ShellAction.Continue := by
  unfold builtin_pwd at h
  repeat' split at h
  all_goals simp_all

theorem builtin_echo_continue (args : List String) (st st' : ShellState)
    (a : ShellAction) (h : builtin_echo args st = some (st', a)) :
    a = ShellAction.Continue := by
  unfold builtin_echo at h
  repeat' split at h
  all_goals simp_all

theorem builtin_set_continue (args : List String) (st st' : ShellState)
    (a : ShellAction) (h : builtin_set args st = some (st', a)) :
    a = ShellAction.Continue := by
  unfold builtin_set at h
  repeat' split at h
  all_goals simp_all

theorem builtin_unset_continue (args : List String) (st st' : ShellState)
    (a : ShellAction) (h : builtin_unset args st = some (st', a)) :
    a = ShellAction.Continue := by
  unfold builtin_unset at h
  repeat' split at h
  all_goals simp_all

theorem builtin_env_continue (args : List String) (st st' : ShellState)
    (a : ShellAction) (h : builtin_env args st = some (st', a)) :
    a = ShellAction.Continue := by
  unfold builtin_env at h
  simp_all

theorem run_external_continue (cmd : String) (args : List String)
    (env : ShellEnv) (st st' : ShellState) (spawn : SpawnResult)
    (a : ShellAction)
    (h : run_external cmd args env st spawn = some (st', a)) :
    a = ShellAction.Continue := by
  unfold run_external at h
  repeat' split at h
  all_goals simp_all

/-- Any builtin found in the registry under a name other than `exit`
returns Continue whenever it returns at all. -/
theorem builtins_lookup_continue (cmd : String)
    (f : List String → ShellState → Option (ShellState × ShellAction))
    (hcmd : cmd ≠ "exit") (hf : builtins_lookup cmd = some f)
    (args : List String) (st st' : ShellState) (a : ShellAction)
    (h : f args st = some (st', a)) : a = ShellAction.Continue := by
  unfold builtins_lookup at hf
  split_ifs at hf
  · cases hf; exact builtin_cd_continue args st st' a h
  · cases hf; exact builtin_pwd_continue args st st' a h
  · cases hf; exact builtin_echo_continue args st st' a h
  · cases hf; exact builtin_set_continue args st st' a h
  · cases hf; exact builtin_unset_continue args st st' a h
  · cases hf; exact builtin_env_continue args st st' a h

/-- C3: dispatching one non-empty command line returns Exit iff the command
name is the builtin `exit`; `exit` itself ignores its arguments, changes no
state and writes nothing; every other builtin and the external executor
return Continue whenever they return at all, regardless of the child exit
status or of spawn failure. -/
theorem c3_dispatch_exit_iff :
    (∀ args st, builtin_exit args st = some (st, ShellAction.Exit)) ∧
    (∀ cmd args env st spawn st' a,
      run_external cmd args env st spawn = some (st', a) →
      a = ShellAction.Continue) ∧
    (∀ input st spawn st' a,
      handle_command input st spawn = some (st', a) →
      (a = ShellAction.Exit ↔ (split_whitespace input).head? = some "exit")) := by
  refine ⟨fun args st => rfl,
    fun cmd args env st spawn st' a h =>
      run_external_continue cmd args env st st' spawn a h, ?_⟩
  intro input st spawn st' a h
  unfold handle_command at h
  cases htok : split_whitespace input with
  | nil =>
    rw [htok] at h
    simp at h
  | cons cmd rest =>
    simp only [htok] at h
    simp only [List.head?_cons, Option.some.injEq]
    cases hlk : builtins_lookup cmd with
    | none =>
      simp only [hlk] at h
      have hcmd : cmd ≠ "exit" := by
        intro hc
        subst hc
        have hfe : builtins_lookup "exit" = some builtin_exit := rfl
        rw [hfe] at hlk
        simp at hlk
      have hc := run_external_continue cmd (expand_args rest st.env) st.env
        st st' spawn a h
      simp [hc, hcmd]
    | some f =>
      simp only [hlk] at h
      by_cases hcmd : cmd = "exit"
      · subst hcmd
        have hfe : builtins_lookup "exit" = some builtin_exit := rfl
        rw [hfe] at hlk
        injection hlk with hlk
        subst hlk
        simp only [builtin_exit, Option.some.injEq, Prod.mk.injEq] at h
        simp [h.2.symm]
      · have hc := builtins_lookup_continue cmd f hcmd hlk
          (expand_args rest st.env) st st' a h
        simp [hc, hcmd]

/-- Witness for C3: dispatching `exit now` in the sample world. -/
theorem c3_dispatch_exit_iff_witness :
    (ShellAction.Exit = ShellAction.Exit ↔
      (split_whitespace "exit now").head? = some "exit") :=
  c3_dispatch_exit_iff.2.2 "exit now" sampleState (SpawnResult.ran 0)
    sampleState ShellAction.Exit (by decide)
